import Mathlib

/-!
Shallow embedding of the table- and figure-building pipelines of
`src/build_all_tables.py` and `src/make_figures.py`.

Modelling conventions:
- A CSV cell is a `String`; a coerced numeric cell is an `Option ℚ`
  (`none` models pandas NaN, a missing value).  Machine floats are
  modelled by exact rationals: the claims under scrutiny are about
  decimal values, not bit-level rounding.
- `pd.to_numeric(x, errors="coerce")` and Python float conversion are
  modelled by one decimal parser (`to_numeric`) handling an optional
  sign, a decimal mantissa and an optional exponent.  The parser first
  computes pure numeric parts (`parseParts`) and `ratOfParts` assembles
  the rational value.  The special spellings inf and nan and
  underscore digit separators are outside the model.
- Python string comparison, used by sorting on a text column, is
  code-point lexicographic order; it is modelled by `charListLt` on
  the character lists.
- File IO is abstracted: each `build_tableN` takes the parsed rows of
  its input file and returns the rows that are persisted; `save_table`
  takes the outcomes of the two underlying file writes as `Except`
  actions.
- `DataFrame.sort_values` is modelled by `List.insertionSort` with the
  corresponding key relation, including the default NaN placement
  `na_position="last"` applied per key.  The source uses quicksort,
  whose order on tied keys is unspecified; no theorem below depends on
  tie order except where the key relation itself forces the order.
-/

/-- Whitespace as stripped by Python string stripping and numeric
parsing (ASCII subset). -/
def isSpaceChar (c : Char) : Bool :=
  c == ' ' || c == '\t' || c == '\n' || c == '\r'

/-- Strip whitespace from both ends of a character list. -/
def trimChars (l : List Char) : List Char :=
  ((l.dropWhile isSpaceChar).reverse.dropWhile isSpaceChar).reverse

/-- Value of a digit string, most significant first (no validation). -/
def digitsToNat (l : List Char) : Nat :=
  l.foldl (fun a c => a * 10 + (c.toNat - 48)) 0

/-- A nonempty all-digit character list, as a number. -/
def natOfDigits (l : List Char) : Option Nat :=
  if l.isEmpty then none
  else if l.all Char.isDigit then some (digitsToNat l) else none

/-- Split a character list at the first occurrence of `c`;
`none` when `c` does not occur. -/
def splitFirst (c : Char) : List Char → Option (List Char × List Char)
  | [] => none
  | x :: xs =>
    if x = c then some ([], xs)
    else (splitFirst c xs).map (fun p => (x :: p.1, p.2))

/-- Consume an optional leading sign; returns (negative?, rest). -/
def parseSignChars : List Char → Bool × List Char
  | '+' :: r => (false, r)
  | '-' :: r => (true, r)
  | l => (false, l)

/-- Decimal mantissa digits: the digit value and the number of
fractional digits.  Accepts digits with at most one point and at least
one digit overall, e.g. "12", "12.", ".5", "12.5". -/
def parseMantissaParts (l : List Char) : Option (Nat × Nat) :=
  match splitFirst '.' l with
  | none => (natOfDigits l).map (fun n => (n, 0))
  | some (ip, fp) => (natOfDigits (ip ++ fp)).map (fun n => (n, fp.length))

/-- Exponent part after the letter e: optional sign, nonempty digits. -/
def parseExp (l : List Char) : Option Int :=
  let (neg, r) := parseSignChars l
  (natOfDigits r).map (fun n => if neg then -(n : Int) else (n : Int))

/-- Numeric parts of a decimal literal on a trimmed, lowercased
character list: sign, mantissa digit value, count of fractional
digits, exponent. -/
def parseParts (l : List Char) : Option (Bool × Nat × Nat × Int) :=
  let (neg, r) := parseSignChars l
  match splitFirst 'e' r with
  | none => (parseMantissaParts r).map (fun m => (neg, m.1, m.2, 0))
  | some (m, ex) =>
    match parseMantissaParts m, parseExp ex with
    | some mv, some ev => some (neg, mv.1, mv.2, ev)
    | _, _ => none

/-- The rational value denoted by parsed numeric parts. -/
def ratOfParts : Bool × Nat × Nat × Int → ℚ
  | (neg, n, k, e) => (cond neg (-(n : ℚ)) (n : ℚ)) / (10 : ℚ) ^ k * (10 : ℚ) ^ e

/-- Core decimal parser on a trimmed, lowercased character list. -/
def parseDecCore (l : List Char) : Option ℚ :=
  (parseParts l).map ratOfParts

/-- Model of `pd.to_numeric(s, errors="coerce")` on a string cell and
of Python float conversion: the parsed number, or `none` (missing)
when the cell does not parse. -/
def to_numeric (s : String) : Option ℚ :=
  parseDecCore ((trimChars s.data).map Char.toLower)

/-- Does the list end in the character `c`? -/
def endsWithChar (l : List Char) (c : Char) : Bool :=
  match l.getLast? with
  | some x => x == c
  | none => false

/-- Normalisation at the head of `to_flops_b`: strip then uppercase. -/
def flopsNorm (v : String) : List Char :=
  (trimChars v.data).map Char.toUpper

/-- Suffix handling of `to_flops_b`: returns the remaining core string
and the unit divisor d, the factor of the source being 1 / d —
trailing B or G is dropped with divisor 1, trailing M is dropped with
divisor 1000, anything else leaves the string whole with divisor 1. -/
def flopsSplit (v : String) : List Char × Nat :=
  let s := flopsNorm v
  if endsWithChar s 'B' then (s.dropLast, 1)
  else if endsWithChar s 'G' then (s.dropLast, 1)
  else if endsWithChar s 'M' then (s.dropLast, 1000)
  else (s, 1)

/-- Model of `to_flops_b` in `make_figure1`: convert strings like
"4.1B" or "1.2M" to billions.  The input `none` models a NaN cell
(the `pd.isna(val)` branch of the source). -/
def to_flops_b : Option String → Option ℚ
  | none => none
  | some v =>
    (to_numeric ⟨(flopsSplit v).1⟩).map
      (fun q => q * (1 / ((flopsSplit v).2 : ℚ)))

/-- Model of the comma replacement in `make_figure3`: remove every
comma (thousands separators). -/
def stripCommas (s : String) : String :=
  ⟨s.data.filter (fun c => !(c == ','))⟩

/-- Sample-count parsing in `make_figure3`: strip thousands
separators, then coerce to numeric. -/
def parse_total_samples (s : String) : Option ℚ :=
  to_numeric (stripCommas s)

example : parseParts ((trimChars "4.1".data).map Char.toLower) =
    some (false, 41, 1, 0) := by decide
example : parseParts ((trimChars "abc".data).map Char.toLower) = none := by decide
example : to_numeric "abc" = none := by decide
example : flopsSplit "1200M" = (['1', '2', '0', '0'], 1000) := by decide
example : to_numeric "4.1" = some (41 / 10) := by
  have h : parseParts ((trimChars "4.1".data).map Char.toLower) =
      some (false, 41, 1, 0) := by decide
  unfold to_numeric parseDecCore
  rw [h]
  norm_num [ratOfParts]

/-- Python string comparison: code-point lexicographic order on the
character lists.  This is the order `sort_values` uses on a text
column. -/
def charListLt : List Char → List Char → Bool
  | [], [] => false
  | [], _ :: _ => true
  | _ :: _, [] => false
  | a :: as, b :: bs => if a = b then charListLt as bs else decide (a < b)

/-- Strict order on strings as Python compares them. -/
def strLt (a b : String) : Prop :=
  charListLt a.data b.data = true

/-- Weak order on strings as Python compares them. -/
def strLe (a b : String) : Prop :=
  strLt a b ∨ a = b

instance : ∀ a b : String, Decidable (strLt a b) := fun a b =>
  inferInstanceAs (Decidable (charListLt a.data b.data = true))

theorem charListLt_irrefl : ∀ l : List Char, charListLt l l = false := by
  intro l
  induction l with
  | nil => rfl
  | cons a as ih => simp [charListLt, ih]

theorem charListLt_trans : ∀ a b c : List Char,
    charListLt a b = true → charListLt b c = true → charListLt a c = true := by
  intro a
  induction a with
  | nil =>
    intro b c h1 h2
    cases b with
    | nil => simp [charListLt] at h1
    | cons y ys =>
      cases c with
      | nil => simp [charListLt] at h2
      | cons z zs => simp [charListLt]
  | cons x xs ih =>
    intro b c h1 h2
    cases b with
    | nil => simp [charListLt] at h1
    | cons y ys =>
      cases c with
      | nil => simp [charListLt] at h2
      | cons z zs =>
        simp only [charListLt] at h1 h2 ⊢
        by_cases hxy : x = y
        · subst hxy
          simp only [if_pos rfl] at h1
          by_cases hxz : x = z
          · subst hxz
            simp only [if_pos rfl] at h2 ⊢
            exact ih ys zs h1 h2
          · simp only [if_neg hxz] at h2 ⊢
            exact h2
        · simp only [if_neg hxy, decide_eq_true_eq] at h1
          by_cases hyz : y = z
          · subst hyz
            simp only [if_neg hxy, decide_eq_true_eq]
            exact h1
          · simp only [if_neg hyz, decide_eq_true_eq] at h2
            have hxz : x < z := lt_trans h1 h2
            simp only [if_neg (ne_of_lt hxz), decide_eq_true_eq]
            exact hxz

theorem charListLt_total : ∀ a b : List Char,
    charListLt a b = true ∨ a = b ∨ charListLt b a = true := by
  intro a
  induction a with
  | nil =>
    intro b
    cases b with
    | nil => exact Or.inr (Or.inl rfl)
    | cons y ys => exact Or.inl (by simp [charListLt])
  | cons x xs ih =>
    intro b
    cases b with
    | nil => exact Or.inr (Or.inr (by simp [charListLt]))
    | cons y ys =>
      rcases lt_trichotomy x y with h | h | h
      · exact Or.inl (by simp [charListLt, if_neg (ne_of_lt h), h])
      · subst h
        rcases ih ys with h2 | h2 | h2
        · exact Or.inl (by simp [charListLt, h2])
        · exact Or.inr (Or.inl (by rw [h2]))
        · exact Or.inr (Or.inr (by simp [charListLt, h2]))
      · refine Or.inr (Or.inr ?_)
        simp only [charListLt, if_neg (ne_of_lt h), decide_eq_true_eq]
        exact h

theorem strEq_of_data_eq {a b : String} (h : a.data = b.data) : a = b :=
  congrArg String.mk h

theorem strLt_trans {a b c : String} (h1 : strLt a b) (h2 : strLt b c) :
    strLt a c :=
  charListLt_trans a.data b.data c.data h1 h2

theorem strLt_total (a b : String) : strLt a b ∨ a = b ∨ strLt b a := by
  rcases charListLt_total a.data b.data with h | h | h
  · exact Or.inl h
  · exact Or.inr (Or.inl (strEq_of_data_eq h))
  · exact Or.inr (Or.inr h)

theorem strLt_ne {a b : String} (h : strLt a b) : a ≠ b := by
  intro e
  subst e
  unfold strLt at h
  rw [charListLt_irrefl] at h
  exact Bool.false_ne_true h

/-- Ascending order on a coerced numeric key with missing values last,
pandas default `na_position="last"`. -/
def naLastLe : Option ℚ → Option ℚ → Prop
  | _, none => True
  | none, some _ => False
  | some a, some b => a ≤ b

/-- Descending order on a coerced numeric key with missing values
last, as produced by `ascending=False` with `na_position="last"`. -/
def naLastGe : Option ℚ → Option ℚ → Prop
  | _, none => True
  | none, some _ => False
  | some a, some b => b ≤ a

instance : ∀ x y : Option ℚ, Decidable (naLastLe x y)
  | none, none => isTrue True.intro
  | some _, none => isTrue True.intro
  | none, some _ => isFalse (fun h => h)
  | some a, some b => inferInstanceAs (Decidable (a ≤ b))

instance : ∀ x y : Option ℚ, Decidable (naLastGe x y)
  | none, none => isTrue True.intro
  | some _, none => isTrue True.intro
  | none, some _ => isFalse (fun h => h)
  | some a, some b => inferInstanceAs (Decidable (b ≤ a))

theorem naLastLe_total (x y : Option ℚ) : naLastLe x y ∨ naLastLe y x := by
  cases x <;> cases y
  · exact Or.inl True.intro
  · exact Or.inr True.intro
  · exact Or.inl True.intro
  · exact le_total _ _

theorem naLastLe_trans (x y z : Option ℚ)
    (h1 : naLastLe x y) (h2 : naLastLe y z) : naLastLe x z := by
  cases x <;> cases y <;> cases z <;>
    first
      | exact True.intro
      | exact False.elim h1
      | exact False.elim h2
      | exact le_trans h1 h2

theorem naLastGe_total (x y : Option ℚ) : naLastGe x y ∨ naLastGe y x := by
  cases x <;> cases y
  · exact Or.inl True.intro
  · exact Or.inr True.intro
  · exact Or.inl True.intro
  · exact le_total _ _

theorem naLastGe_trans (x y z : Option ℚ)
    (h1 : naLastGe x y) (h2 : naLastGe y z) : naLastGe x z := by
  cases x <;> cases y <;> cases z <;>
    first
      | exact True.intro
      | exact False.elim h1
      | exact False.elim h2
      | exact le_trans h2 h1

/-- Two-column lexicographic sort key, as used by
`sort_values([text_column, numeric_column], ascending=[True, False])`:
primary text key ascending, ties broken by the coerced numeric key
descending with missing values last. -/
def lexNaRel (ds : α → String) (key : α → Option ℚ) (a b : α) : Prop :=
  strLt (ds a) (ds b) ∨ (ds a = ds b ∧ naLastGe (key a) (key b))

instance (ds : α → String) (key : α → Option ℚ) :
    DecidableRel (lexNaRel ds key) := fun a b =>
  inferInstanceAs
    (Decidable (strLt (ds a) (ds b) ∨ (ds a = ds b ∧ naLastGe (key a) (key b))))

theorem lexNaRel_total (ds : α → String) (key : α → Option ℚ) :
    ∀ a b, lexNaRel ds key a b ∨ lexNaRel ds key b a := by
  intro a b
  rcases strLt_total (ds a) (ds b) with h | h | h
  · exact Or.inl (Or.inl h)
  · rcases naLastGe_total (key a) (key b) with hg | hg
    · exact Or.inl (Or.inr ⟨h, hg⟩)
    · exact Or.inr (Or.inr ⟨h.symm, hg⟩)
  · exact Or.inr (Or.inl h)

theorem lexNaRel_trans (ds : α → String) (key : α → Option ℚ) :
    ∀ a b c, lexNaRel ds key a b → lexNaRel ds key b c → lexNaRel ds key a c := by
  intro a b c h1 h2
  rcases h1 with h1 | ⟨e1, g1⟩ <;> rcases h2 with h2 | ⟨e2, g2⟩
  · exact Or.inl (strLt_trans h1 h2)
  · exact Or.inl (e2 ▸ h1)
  · exact Or.inl (e1 ▸ h2)
  · exact Or.inr ⟨e1.trans e2, naLastGe_trans _ _ _ g1 g2⟩

/-- A raw row of `table1_model_performance.csv`: the two columns the
transform touches (Dataset as sort key, the accuracy percentage as
coerced sort key), plus all remaining cells in original order. -/
structure Row1 where
  dataset : String
  accuracy : String
  rest : List String
deriving DecidableEq

/-- A persisted row of table 1: accuracy coerced to numeric. -/
structure Row1C where
  dataset : String
  accuracy : Option ℚ
  rest : List String
deriving DecidableEq

/-- Column coercion of `build_table1`:
`pd.to_numeric(df[accuracy], errors="coerce")`. -/
def coerce1 (r : Row1) : Row1C :=
  ⟨r.dataset, to_numeric r.accuracy, r.rest⟩

/-- Sort key of `build_table1`: Dataset ascending, then accuracy
descending, missing last. -/
def rel1 : Row1C → Row1C → Prop :=
  lexNaRel Row1C.dataset Row1C.accuracy

instance : DecidableRel rel1 := fun a b =>
  inferInstanceAs (Decidable (lexNaRel Row1C.dataset Row1C.accuracy a b))

instance : IsTotal Row1C rel1 := ⟨lexNaRel_total _ _⟩

instance : IsTrans Row1C rel1 := ⟨lexNaRel_trans _ _⟩

/-- Model of `build_table1`: coerce the accuracy column, sort by
Dataset ascending then accuracy descending. -/
def build_table1 (t : List Row1) : List Row1C :=
  List.insertionSort rel1 (t.map coerce1)

/-- A raw row of `table2_hardware_speeds.csv`. -/
structure Row2 where
  hardware : String
  speed : String
  rest : List String
deriving DecidableEq

/-- A persisted row of table 2: inference speed coerced to numeric. -/
structure Row2C where
  hardware : String
  speed : Option ℚ
  rest : List String
deriving DecidableEq

/-- Column coercion of `build_table2`. -/
def coerce2 (r : Row2) : Row2C :=
  ⟨r.hardware, to_numeric r.speed, r.rest⟩

/-- Sort key of `build_table2`: Hardware ascending, then speed
descending, missing last. -/
def rel2 : Row2C → Row2C → Prop :=
  lexNaRel Row2C.hardware Row2C.speed

instance : DecidableRel rel2 := fun a b =>
  inferInstanceAs (Decidable (lexNaRel Row2C.hardware Row2C.speed a b))

instance : IsTotal Row2C rel2 := ⟨lexNaRel_total _ _⟩

instance : IsTrans Row2C rel2 := ⟨lexNaRel_trans _ _⟩

/-- Model of `build_table2`: coerce the speed column, sort by Hardware
ascending then speed descending. -/
def build_table2 (t : List Row2) : List Row2C :=
  List.insertionSort rel2 (t.map coerce2)

/-- A raw row of `table3_datasets.csv`. -/
structure Row3 where
  year : String
  rest : List String
deriving DecidableEq

/-- A persisted row of table 3: Year coerced to numeric. -/
structure Row3C where
  year : Option ℚ
  rest : List String
deriving DecidableEq

/-- Column coercion of `build_table3`. -/
def coerce3 (r : Row3) : Row3C :=
  ⟨to_numeric r.year, r.rest⟩

/-- Sort key of `build_table3`: Year ascending, missing last. -/
def rel3 (a b : Row3C) : Prop :=
  naLastLe a.year b.year

instance : DecidableRel rel3 := fun a b =>
  inferInstanceAs (Decidable (naLastLe a.year b.year))

instance : IsTotal Row3C rel3 := ⟨fun a b => naLastLe_total a.year b.year⟩

instance : IsTrans Row3C rel3 :=
  ⟨fun a b c => naLastLe_trans a.year b.year c.year⟩

/-- Model of `build_table3`: coerce the Year column, sort ascending by
it. -/
def build_table3 (t : List Row3) : List Row3C :=
  List.insertionSort rel3 (t.map coerce3)

/-- Model of `build_table4`: the table is persisted unchanged. -/
def build_table4 (t : List (List String)) : List (List String) := t

/-- Model of `build_table5`: the table is persisted unchanged. -/
def build_table5 (t : List (List String)) : List (List String) := t

/-- Model of `build_table6`: the table is persisted unchanged. -/
def build_table6 (t : List (List String)) : List (List String) := t

/-- Does `l` start with the pattern `pat`? -/
def headMatch : List Char → List Char → Bool
  | [], _ => true
  | _ :: _, [] => false
  | p :: ps, x :: xs => p == x && headMatch ps xs

/-- Does the pattern `pat` occur contiguously anywhere in the list? -/
def containsSeq (pat : List Char) : List Char → Bool
  | [] => pat.isEmpty
  | x :: xs => headMatch pat (x :: xs) || containsSeq pat xs

/-- Model of the pattern extraction of `build_table7`.  The source
passes the raw string containing backslash backslash d 4 as the
pattern, so the compiled regular expression matches one literal
backslash followed by the four letters dddd — not four digits.  The
first match, when one exists, is therefore always the five-character
string backslash-dddd. -/
def extract_dddd (s : String) : Option String :=
  if containsSeq ['\\', 'd', 'd', 'd', 'd'] s.data then some "\\dddd"
  else none

/-- The era_numeric helper value of one row of `build_table7`: the
extracted match converted by `.astype(float)`.  A row without a match
holds NaN (`some none`); a row whose match does not convert to float
makes the whole conversion raise, modelled as `none`. -/
def era_key (s : String) : Option (Option ℚ) :=
  match extract_dddd s with
  | none => some none
  | some cap =>
    match to_numeric cap with
    | some q => some (some q)
    | none => none

/-- A raw row of `table7_evolution_technologies.csv`. -/
structure Row7 where
  era : String
  rest : List String
deriving DecidableEq

/-- Sort key of `build_table7`: era_numeric ascending, missing last. -/
def rel7 (a b : Row7 × Option ℚ) : Prop :=
  naLastLe a.2 b.2

instance : DecidableRel rel7 := fun a b =>
  inferInstanceAs (Decidable (naLastLe a.2 b.2))

/-- Model of `build_table7`: compute the era_numeric helper column
(`none` result models the `.astype(float)` call raising), sort by it,
then drop the helper column before persisting. -/
def build_table7 (t : List Row7) : Option (List Row7) :=
  match t.mapM (fun r => (era_key r.era).map (fun k => (r, k))) with
  | none => none
  | some keyed => some ((List.insertionSort rel7 keyed).map Prod.fst)

/-- Model of `save_table`: the primary CSV write runs outside any
exception handler, the secondary LaTeX write is wrapped in
try/except.  The two file writes are abstracted as `Except` actions;
the returned list holds the lines printed on the successful path. -/
def save_table (name : String) (csvWrite : Except String Unit)
    (texWrite : Except String Unit) : Except String (List String) :=
  match csvWrite with
  | Except.error e => Except.error e
  | Except.ok _ =>
    match texWrite with
    | Except.ok _ => Except.ok ["Saved " ++ name]
    | Except.error e =>
      Except.ok ["Could not write LaTeX for " ++ name ++ ": " ++ e,
        "Saved " ++ name]

/-- Rendering of a coerced numeric cell into the persisted CSV: NaN
becomes an empty field; the byte-level float formatting of pandas is
abstracted to a canonical rendering of the exact rational. -/
def renderNum : Option ℚ → String
  | none => ""
  | some q => toString q.num ++ "/" ++ toString q.den

/-- Minimal CSV field quoting, as `DataFrame.to_csv` quotes fields
that contain a separator, quote or line break. -/
def csvCell (s : String) : String :=
  if s.data.any (fun c => c == ',' || c == '"' || c == '\n' || c == '\r') then
    "\"" ++
      String.mk (s.data.foldr
        (fun c acc => if c = '"' then '"' :: '"' :: acc else c :: acc) []) ++
      "\""
  else s

/-- One persisted CSV line. -/
def csvLine (cells : List String) : String :=
  String.intercalate "," (cells.map csvCell)

/-- A persisted CSV file body (one line per row). -/
def csvFile (rows : List (List String)) : String :=
  String.intercalate "\n" (rows.map csvLine)

/-- Cells of a persisted row of table 1 (key columns first; column
order inside the file is irrelevant to the claims below). -/
def row1Cells (r : Row1C) : List String :=
  r.dataset :: renderNum r.accuracy :: r.rest

/-- Cells of a persisted row of table 2. -/
def row2Cells (r : Row2C) : List String :=
  r.hardware :: renderNum r.speed :: r.rest

/-- Cells of a persisted row of table 3. -/
def row3Cells (r : Row3C) : List String :=
  renderNum r.year :: r.rest

/-- Cells of a persisted row of table 7 (the helper column is gone). -/
def row7Cells (r : Row7) : List String :=
  r.era :: r.rest

/-- The raw input tables of the table-builder pipeline. -/
structure RawTables where
  t1 : List Row1
  t2 : List Row2
  t3 : List Row3
  t4 : List (List String)
  t5 : List (List String)
  t6 : List (List String)
  t7 : List Row7
deriving DecidableEq

/-- One full run of the table-builder pipeline: the CSV bodies written
for the seven tables.  Table 7 yields `none` when its transform
raises. -/
def run_tables (i : RawTables) : List (Option String) :=
  [some (csvFile ((build_table1 i.t1).map row1Cells)),
    some (csvFile ((build_table2 i.t2).map row2Cells)),
    some (csvFile ((build_table3 i.t3).map row3Cells)),
    some (csvFile (build_table4 i.t4)),
    some (csvFile (build_table5 i.t5)),
    some (csvFile (build_table6 i.t6)),
    (build_table7 i.t7).map (fun t => csvFile (t.map row7Cells))]

/-- C1: the claim says `build_table7` extracts a 4-digit year from the
Era field and sorts rows ascending by it.  The code cannot: its
pattern (a doubled backslash in a raw string) matches one literal
backslash followed by the four letters dddd, so the only match the
extraction can ever produce is the literal string backslash-dddd and
an Era holding a real 4-digit year yields missing; consequently a
table whose eras contain the years 2015 and 1998 is not reordered by
year — every key is missing, so the sort keeps the model's stable tie
order (the source's quicksort fixes no tie order, and no tie order is
the year order the claim requires). -/
theorem c1_table7_never_extracts_year :
    extract_dddd "Classical era (1998)" = none ∧
    (∀ s : String, extract_dddd s = none ∨ extract_dddd s = some "\\dddd") ∧
    build_table7 [⟨"Neural era (2015)", []⟩, ⟨"Classical era (1998)", []⟩] =
      some [⟨"Neural era (2015)", []⟩, ⟨"Classical era (1998)", []⟩] := by
  refine ⟨by decide, ?_, by decide⟩
  intro s
  cases h : containsSeq ['\\', 'd', 'd', 'd', 'd'] s.data
  · exact Or.inl (by simp [extract_dddd, h])
  · exact Or.inr (by simp [extract_dddd, h])

/-- C2 counterexample: the claim says a compute-cost value without a
B, G or M suffix yields missing; the code parses the bare number "123"
to 123 instead. -/
theorem c2_unsuffixed_counterexample :
    to_flops_b (some "123") = some 123 ∧ to_flops_b (some "123") ≠ none := by
  have hv : to_flops_b (some "123") =
      some (ratOfParts (false, 123, 0, 0) * (1 / ((1 : Nat) : ℚ))) := rfl
  have h1 : to_flops_b (some "123") = some 123 := by
    rw [hv]
    norm_num [ratOfParts]
  exact ⟨h1, by rw [h1]; simp⟩

/-- C2 amended: a compute-cost value whose normalised form carries no
B, G or M suffix is parsed directly as a plain number in billions
(unit factor 1); only values whose remaining core fails numeric
parsing yield missing. -/
theorem c2_unsuffixed_parsed_plain (s : String)
    (hB : endsWithChar (flopsNorm s) 'B' = false)
    (hG : endsWithChar (flopsNorm s) 'G' = false)
    (hM : endsWithChar (flopsNorm s) 'M' = false) :
    to_flops_b (some s) = to_numeric ⟨flopsNorm s⟩ := by
  show (to_numeric ⟨(flopsSplit s).1⟩).map
      (fun q => q * (1 / ((flopsSplit s).2 : ℚ))) = to_numeric ⟨flopsNorm s⟩
  have hs : flopsSplit s = (flopsNorm s, 1) := by
    simp [flopsSplit, hB, hG, hM]
  rw [hs]
  cases hq : to_numeric ⟨flopsNorm s⟩ <;> simp [hq]

/-- C2 witness: the amended statement applied at the unsuffixed
numeric input "123". -/
theorem c2_witness :
    to_flops_b (some "123") = to_numeric ⟨flopsNorm "123"⟩ :=
  c2_unsuffixed_parsed_plain "123" (by decide) (by decide) (by decide)

/-- C3: the first six table transforms preserve the row count for
every input, but `build_table7` raises inside `.astype(float)` on a
table whose Era cell contains a literal backslash followed by dddd —
the only text its extraction pattern can match, and one that does not
convert to float — so on such input no output is produced at all. -/
theorem c3_row_counts :
    (∀ t : List Row1, (build_table1 t).length = t.length) ∧
    (∀ t : List Row2, (build_table2 t).length = t.length) ∧
    (∀ t : List Row3, (build_table3 t).length = t.length) ∧
    (∀ t : List (List String), (build_table4 t).length = t.length) ∧
    (∀ t : List (List String), (build_table5 t).length = t.length) ∧
    (∀ t : List (List String), (build_table6 t).length = t.length) ∧
    build_table7 [⟨"\\dddd", []⟩] = none := by
  refine ⟨?_, ?_, ?_, fun _ => rfl, fun _ => rfl, fun _ => rfl, by decide⟩
  · intro t
    exact ((List.perm_insertionSort rel1 (t.map coerce1)).length_eq).trans
      (List.length_map _ _)
  · intro t
    exact ((List.perm_insertionSort rel2 (t.map coerce2)).length_eq).trans
      (List.length_map _ _)
  · intro t
    exact ((List.perm_insertionSort rel3 (t.map coerce3)).length_eq).trans
      (List.length_map _ _)

/-- C4: the compute-cost conversion maps "4.1B" to 4.1, "1200M" to
1.2 and "7G" to 7 (B and G keep the magnitude, M divides by 1000),
and any input whose remaining core fails numeric parsing yields
missing — the conversion is a total function, it cannot raise. -/
theorem c4_flops_unit_conversion :
    to_flops_b (some "4.1B") = some (41 / 10) ∧
    to_flops_b (some "1200M") = some (6 / 5) ∧
    to_flops_b (some "7G") = some 7 ∧
    ∀ s : String, to_numeric ⟨(flopsSplit s).1⟩ = none →
      to_flops_b (some s) = none := by
  refine ⟨?_, ?_, ?_, ?_⟩
  · have hv : to_flops_b (some "4.1B") =
        some (ratOfParts (false, 41, 1, 0) * (1 / ((1 : Nat) : ℚ))) := rfl
    rw [hv]
    norm_num [ratOfParts]
  · have hv : to_flops_b (some "1200M") =
        some (ratOfParts (false, 1200, 0, 0) * (1 / ((1000 : Nat) : ℚ))) := rfl
    rw [hv]
    norm_num [ratOfParts]
  · have hv : to_flops_b (some "7G") =
        some (ratOfParts (false, 7, 0, 0) * (1 / ((1 : Nat) : ℚ))) := rfl
    rw [hv]
    norm_num [ratOfParts]
  · intro s h
    show (to_numeric ⟨(flopsSplit s).1⟩).map
        (fun q => q * (1 / ((flopsSplit s).2 : ℚ))) = none
    rw [h]
    rfl

/-- C4 witness: the malformed-input part of the conversion theorem
applied at the concrete unparseable input "N/A". -/
theorem c4_witness : to_flops_b (some "N/A") = none :=
  c4_flops_unit_conversion.2.2.2 "N/A" (by decide)

/-- C5: `build_table1` outputs a permutation of the coerced input in
which every input row reappears with its accuracy cell coerced by
`to_numeric` (missing when unparseable), the rows are weakly ascending
by dataset name, and within every dataset the parsed accuracies are
descending. -/
theorem c5_table1_coerce_and_sort (t : List Row1) :
    (build_table1 t).Perm (t.map coerce1) ∧
    (∀ r ∈ t, (⟨r.dataset, to_numeric r.accuracy, r.rest⟩ : Row1C) ∈
      build_table1 t) ∧
    (build_table1 t).Pairwise (fun a b =>
      strLe a.dataset b.dataset ∧
      (a.dataset = b.dataset → ∀ qa qb : ℚ,
        a.accuracy = some qa → b.accuracy = some qb → qb ≤ qa)) := by
  refine ⟨List.perm_insertionSort rel1 (t.map coerce1), ?_, ?_⟩
  · intro r hr
    exact ((List.perm_insertionSort rel1 (t.map coerce1)).mem_iff).2
      (List.mem_map_of_mem coerce1 hr)
  · refine List.Pairwise.imp ?_ (List.sorted_insertionSort rel1 (t.map coerce1))
    intro a b hab
    rcases hab with h | ⟨he, hg⟩
    · exact ⟨Or.inl h, fun he2 _ _ _ _ => absurd he2 (strLt_ne h)⟩
    · refine ⟨Or.inr he, fun _ qa qb ha hb => ?_⟩
      rw [ha, hb] at hg
      exact hg

/-- C5 witness: the theorem applied at a concrete two-row table. -/
theorem c5_witness :
    (build_table1 [⟨"B", "90", []⟩, ⟨"A", "95", []⟩]).Perm
      ([⟨"B", "90", []⟩, ⟨"A", "95", []⟩].map coerce1) ∧
    (∀ r ∈ ([⟨"B", "90", []⟩, ⟨"A", "95", []⟩] : List Row1),
      (⟨r.dataset, to_numeric r.accuracy, r.rest⟩ : Row1C) ∈
        build_table1 [⟨"B", "90", []⟩, ⟨"A", "95", []⟩]) ∧
    (build_table1 [⟨"B", "90", []⟩, ⟨"A", "95", []⟩]).Pairwise (fun a b =>
      strLe a.dataset b.dataset ∧
      (a.dataset = b.dataset → ∀ qa qb : ℚ,
        a.accuracy = some qa → b.accuracy = some qb → qb ≤ qa)) :=
  c5_table1_coerce_and_sort [⟨"B", "90", []⟩, ⟨"A", "95", []⟩]

/-- C6: in `save_table` a failing LaTeX write is caught — the call
still succeeds and the failure is logged — while a failing CSV write
propagates as the error of the whole call. -/
theorem c6_save_table_error_handling (name e : String)
    (tex : Except String Unit) :
    (∃ log, save_table name (Except.ok ()) (Except.error e) =
        Except.ok log ∧
      ("Could not write LaTeX for " ++ name ++ ": " ++ e) ∈ log) ∧
    save_table name (Except.error e) tex = Except.error e :=
  ⟨⟨["Could not write LaTeX for " ++ name ++ ": " ++ e, "Saved " ++ name],
    rfl, List.mem_cons_self _ _⟩, rfl⟩

/-- C6 witness: the theorem applied at a concrete table name, error
message and LaTeX-write outcome. -/
theorem c6_witness :
    (∃ log, save_table "table1_model_performance" (Except.ok ())
        (Except.error "encoding") = Except.ok log ∧
      ("Could not write LaTeX for table1_model_performance: encoding") ∈
        log) ∧
    save_table "table1_model_performance" (Except.error "disk full")
      (Except.ok ()) = Except.error "disk full" :=
  ⟨(c6_save_table_error_handling "table1_model_performance" "encoding"
      (Except.ok ())).1,
    (c6_save_table_error_handling "table1_model_performance" "disk full"
      (Except.ok ())).2⟩

/-- C7: the sample-count parsing strips thousands-separator commas
before coercion, so "12,345" parses to 12345, and any value whose
comma-stripped form fails numeric parsing yields missing — the
parsing is a total function, it cannot raise. -/
theorem c7_sample_count_parsing :
    parse_total_samples "12,345" = some 12345 ∧
    parse_total_samples "Mixed" = none ∧
    ∀ s : String, to_numeric (stripCommas s) = none →
      parse_total_samples s = none := by
  refine ⟨?_, by decide, fun s h => h⟩
  have hv : parse_total_samples "12,345" =
      some (ratOfParts (false, 12345, 0, 0)) := rfl
  rw [hv]
  norm_num [ratOfParts]

/-- C7 witness: the malformed-input part of the parsing theorem
applied at the concrete non-numeric input "n/a". -/
theorem c7_witness : parse_total_samples "n/a" = none :=
  c7_sample_count_parsing.2.2 "n/a" (by decide)

/-- C8: the claim says every numeric-coercion step turns an
unparseable cell into a missing value and never aborts a run.  The
coercions of `build_table7` violate this: on a table whose Era text
contains a literal backslash followed by dddd, the extracted match
does not convert to float and the `.astype(float)` step raises, so
the whole transform aborts instead of degrading the cell to missing. -/
theorem c8_table7_coercion_raises :
    to_numeric "\\dddd" = none ∧
    build_table7 [⟨"From \\dddd to now", []⟩, ⟨"2001", []⟩] = none :=
  ⟨by decide, by decide⟩

/-- C9: one run of the table-builder pipeline is a pure function of
the raw input tables — the source draws on no randomness, time or
other ambient state — so two runs on identical inputs produce
identical CSV bodies. -/
theorem c9_pipeline_deterministic (i j : RawTables) (h : i = j) :
    run_tables i = run_tables j := by
  rw [h]

/-- C9 witness: the determinism theorem applied to two runs on the
same concrete input. -/
theorem c9_witness :
    run_tables ⟨[⟨"A", "95", []⟩], [], [⟨"2019", []⟩], [], [], [],
        [⟨"Era (2001)", []⟩]⟩ =
      run_tables ⟨[⟨"A", "95", []⟩], [], [⟨"2019", []⟩], [], [], [],
        [⟨"Era (2001)", []⟩]⟩ :=
  c9_pipeline_deterministic _ _ rfl

/-- C10 counterexample: the claim says that in `build_table1` every
row whose accuracy fails coercion is placed after every row whose
accuracy parsed.  On a table where the missing-accuracy row belongs
to the lexicographically smaller dataset, the persisted output places
the missing-key row first, before the parsed-key row. -/
theorem c10_counterexample :
    (build_table1 [⟨"A", "x", []⟩, ⟨"B", "95", []⟩]).map
      (fun r => r.accuracy.isSome) = [false, true] ∧
    (build_table1 [⟨"A", "x", []⟩, ⟨"B", "95", []⟩]).map
      Row1C.dataset = ["A", "B"] := by
  exact ⟨by decide, by decide⟩

/-- C10 amended: missing-key rows go after parsed-key rows globally
for the single-key sort of `build_table3`, and within every group of
rows sharing the primary text key for the two-key sorts of
`build_table1` and `build_table2`; each sort permutes whole coerced
rows, and the coercion touches only the numeric key column. -/
theorem c10_missing_keys_last (t1 : List Row1) (t2 : List Row2)
    (t3 : List Row3) :
    ((build_table3 t3).Pairwise (fun a b =>
        a.year = none → b.year = none) ∧
      (build_table3 t3).Perm (t3.map coerce3)) ∧
    ((build_table1 t1).Pairwise (fun a b =>
        a.dataset = b.dataset → a.accuracy = none → b.accuracy = none) ∧
      (build_table1 t1).Perm (t1.map coerce1)) ∧
    ((build_table2 t2).Pairwise (fun a b =>
        a.hardware = b.hardware → a.speed = none → b.speed = none) ∧
      (build_table2 t2).Perm (t2.map coerce2)) ∧
    (∀ r : Row3, (coerce3 r).rest = r.rest) ∧
    (∀ r : Row1, (coerce1 r).rest = r.rest ∧
      (coerce1 r).dataset = r.dataset) ∧
    (∀ r : Row2, (coerce2 r).rest = r.rest ∧
      (coerce2 r).hardware = r.hardware) := by
  refine ⟨⟨?_, List.perm_insertionSort rel3 (t3.map coerce3)⟩,
    ⟨?_, List.perm_insertionSort rel1 (t1.map coerce1)⟩,
    ⟨?_, List.perm_insertionSort rel2 (t2.map coerce2)⟩,
    fun _ => rfl, fun _ => ⟨rfl, rfl⟩, fun _ => ⟨rfl, rfl⟩⟩
  · refine List.Pairwise.imp ?_ (List.sorted_insertionSort rel3 (t3.map coerce3))
    intro a b hab ha
    rw [rel3, ha] at hab
    cases hb : b.year
    · rfl
    · rw [hb] at hab
      exact False.elim hab
  · refine List.Pairwise.imp ?_ (List.sorted_insertionSort rel1 (t1.map coerce1))
    intro a b hab he ha
    rcases hab with h | ⟨_, hg⟩
    · exact absurd he (strLt_ne h)
    · rw [ha] at hg
      cases hb : b.accuracy
      · rfl
      · rw [hb] at hg
        exact False.elim hg
  · refine List.Pairwise.imp ?_ (List.sorted_insertionSort rel2 (t2.map coerce2))
    intro a b hab he ha
    rcases hab with h | ⟨_, hg⟩
    · exact absurd he (strLt_ne h)
    · rw [ha] at hg
      cases hb : b.speed
      · rfl
      · rw [hb] at hg
        exact False.elim hg

/-- C10 witness: the amended statement applied at concrete one-row
tables. -/
theorem c10_witness :
    ((build_table3 [⟨"2019", []⟩]).Pairwise (fun a b =>
        a.year = none → b.year = none) ∧
      (build_table3 [⟨"2019", []⟩]).Perm
        ([⟨"2019", []⟩].map coerce3)) ∧
    ((build_table1 [⟨"A", "95", []⟩]).Pairwise (fun a b =>
        a.dataset = b.dataset → a.accuracy = none → b.accuracy = none) ∧
      (build_table1 [⟨"A", "95", []⟩]).Perm
        ([⟨"A", "95", []⟩].map coerce1)) ∧
    ((build_table2 [⟨"GPU", "120", []⟩]).Pairwise (fun a b =>
        a.hardware = b.hardware → a.speed = none → b.speed = none) ∧
      (build_table2 [⟨"GPU", "120", []⟩]).Perm
        ([⟨"GPU", "120", []⟩].map coerce2)) ∧
    (∀ r : Row3, (coerce3 r).rest = r.rest) ∧
    (∀ r : Row1, (coerce1 r).rest = r.rest ∧
      (coerce1 r).dataset = r.dataset) ∧
    (∀ r : Row2, (coerce2 r).rest = r.rest ∧
      (coerce2 r).hardware = r.hardware) :=
  c10_missing_keys_last [⟨"A", "95", []⟩] [⟨"GPU", "120", []⟩] [⟨"2019", []⟩]
